import Mathlib

/-!
Shallow embedding of the audio engine of `src/src/hooks/useAudio.ts`
(binaural/ambient layer controllers of the focus-timer app), together with
theorems settling the spec claims about it.

Conventions of the embedding:
* machine reals used by the audio graph (frequencies, gain values, clock
  timestamps) are modelled as rationals;
* JS strings are modelled as `List Char` where their character structure
  matters (URL building) and as `String` where they are opaque tags;
* the mutable refs of the hook become explicit state records, and the
  asynchronous callbacks become pure functions of the state observed at
  the moment the callback runs;
* `setTimeout` scheduling is modelled by recording the delay in
  milliseconds at which the scheduled action fires.
-/

namespace BinauralTomato

/-- Binaural presets as consumed by `useAudio.ts` (the `off` and
`block-noise` values appear in the effect branches; the seven beat presets
appear in `BINAURAL_BEAT_HZ`). -/
inductive BinauralPreset where
  | off
  | focus
  | study
  | work
  | relax
  | rest
  | energy
  | calm
  | blockNoise
  deriving DecidableEq, Repr

/-- Ambient presets as consumed by `useAudio.ts` (`AMBIENT_PRESETS` plus
`off`). `coffeeShop` embeds the source value written as coffee-shop. -/
inductive AmbientPreset where
  | off
  | cafe
  | coffeeShop
  | airport
  | rain
  | library
  deriving DecidableEq, Repr

/-- The configuration snapshot handed to the hook (fields of `NoiseConfig`
as read by `useAudio.ts`). -/
structure NoiseConfig where
  enabled : Bool
  binauralPreset : BinauralPreset
  ambientPreset : AmbientPreset
  binauralVolume : ℚ
  ambientVolume : ℚ
  fadeIn : Bool
  fadeOut : Bool
  deriving DecidableEq, Repr

/-- `BINAURAL_BEAT_HZ` table, `useAudio.ts` lines 38-46. `Partial Record`
in the source: presets absent from the table map to `none`. -/
def BINAURAL_BEAT_HZ : BinauralPreset → Option ℚ
  | .focus => some 20
  | .study => some 10
  | .work => some 40
  | .relax => some 6
  | .rest => some 2
  | .energy => some 25
  | .calm => some 14
  | _ => none

/-- `CARRIER_HZ`, `useAudio.ts` line 68. -/
def CARRIER_HZ : ℚ := 200

/-- One oscillator as configured by the beat branch of `startBinaural`
(`useAudio.ts` lines 390-399): a frequency, a waveform tag, and the
timestamp passed to `start`. -/
structure OscSpec where
  freq : ℚ
  wave : String
  startAt : ℚ
  deriving DecidableEq, Repr

/-- The stereo pair built by the beat branch of `startBinaural`. -/
structure BeatSession where
  left : OscSpec
  right : OscSpec
  deriving DecidableEq, Repr

/-- Beat branch of `startBinaural`, `useAudio.ts` lines 388-399: look the
preset up in `BINAURAL_BEAT_HZ`; when present, build a left oscillator at
`CARRIER_HZ - beatHz / 2` and a right oscillator at
`CARRIER_HZ + beatHz / 2`, both of type sine, read `Tone.now()` once into
`when`, and start both oscillators at that single timestamp. `now` is the
value `Tone.now()` returns at that moment. -/
def startBinauralBeat (preset : BinauralPreset) (now : ℚ) : Option BeatSession :=
  match BINAURAL_BEAT_HZ preset with
  | none => none
  | some beatHz =>
    let leftFreq := CARRIER_HZ - beatHz / 2
    let rightFreq := CARRIER_HZ + beatHz / 2
    let whenT := now
    some { left := { freq := leftFreq, wave := "sine", startAt := whenT }
           right := { freq := rightFreq, wave := "sine", startAt := whenT } }

/-- C1: the beat table holds exactly focus=20, study=10, work=40, relax=6,
rest=2, energy=25, calm=14, and for every preset with beat frequency `b`
the activation builds a left oscillator at `200 - b/2`, a right oscillator
at `200 + b/2`, and starts both at the same scheduled timestamp. -/
theorem binaural_beat_table_and_phase_lock :
    (BINAURAL_BEAT_HZ .focus = some 20 ∧ BINAURAL_BEAT_HZ .study = some 10 ∧
     BINAURAL_BEAT_HZ .work = some 40 ∧ BINAURAL_BEAT_HZ .relax = some 6 ∧
     BINAURAL_BEAT_HZ .rest = some 2 ∧ BINAURAL_BEAT_HZ .energy = some 25 ∧
     BINAURAL_BEAT_HZ .calm = some 14) ∧
    ∀ (p : BinauralPreset) (b now : ℚ) (s : BeatSession),
      BINAURAL_BEAT_HZ p = some b → startBinauralBeat p now = some s →
        s.left.freq = 200 - b / 2 ∧ s.right.freq = 200 + b / 2 ∧
        s.left.startAt = s.right.startAt := by
  refine ⟨by decide, ?_⟩
  intro p b now s hb hs
  simp only [startBinauralBeat, hb] at hs
  cases hs
  simp [CARRIER_HZ]

/-- Witness for C1 at the focus preset and clock value 0. -/
theorem binaural_beat_table_and_phase_lock_witness :
    BINAURAL_BEAT_HZ .focus = some 20 ∧
    startBinauralBeat .focus 0 = some ⟨⟨190, "sine", 0⟩, ⟨210, "sine", 0⟩⟩ ∧
    ((190 : ℚ) = 200 - 20 / 2 ∧ (210 : ℚ) = 200 + 20 / 2 ∧ (0 : ℚ) = 0) :=
  ⟨by decide,
   by norm_num [startBinauralBeat, BINAURAL_BEAT_HZ, CARRIER_HZ],
   binaural_beat_table_and_phase_lock.2 .focus 20 0
     ⟨⟨190, "sine", 0⟩, ⟨210, "sine", 0⟩⟩ (by decide)
     (by norm_num [startBinauralBeat, BINAURAL_BEAT_HZ, CARRIER_HZ])⟩

/-- `AMBIENT_PRESETS`, `useAudio.ts` line 48. -/
def AMBIENT_PRESETS : List AmbientPreset := [.cafe, .airport, .rain, .library, .coffeeShop]

/-- `AMBIENT_PATHS`, `useAudio.ts` lines 50-56. The source record type
excludes the off preset; the off case is mapped to `[]` here and is never
consulted, every use site being guarded by the off check of line 60. -/
def AMBIENT_PATHS : AmbientPreset → List Char
  | .cafe => "sounds/places/cafe.mp3".toList
  | .coffeeShop => "sounds/places/restaurant.mp3".toList
  | .airport => "sounds/places/airport.mp3".toList
  | .rain => "sounds/rain/light-rain.mp3".toList
  | .library => "sounds/places/library.mp3".toList
  | .off => []

/-- The regex replace of `useAudio.ts` line 65 ( base.replace with
pattern: one optional slash anchored at the end, replacement: a slash ):
a string already ending in a slash is unchanged, otherwise one slash is
appended. -/
def replaceOptTrailingSlash (base : List Char) : List Char :=
  if base.getLast? = some '/' then base else base ++ ['/']

/-- `getAmbientUrl`, `useAudio.ts` lines 59-66. `isElec` is the
`isElectron()` host check, `origin` is `window.location.origin`, `base`
is the runtime base path of the bundler environment (BASE_URL, set to
`./` by the vite config of this repo). -/
def getAmbientUrl (isElec : Bool) (origin base : List Char)
    (preset : AmbientPreset) : List Char :=
  if preset = .off then []
  else if isElec then origin ++ '/' :: AMBIENT_PATHS preset
  else replaceOptTrailingSlash base ++ AMBIENT_PATHS preset

/-- A list whose first element, when present, is `a`. -/
theorem take_one_eq_singleton {α : Type} {l : List α} {a : α}
    (h : l.take 1 = [a]) : l.head? = some a := by
  cases l with
  | nil => simp at h
  | cons x xs =>
    simp [List.take] at h
    simp [h]

/-- C10: `getAmbientUrl` maps off to the empty string, and (in browser
mode) every other preset to its fixed `AMBIENT_PATHS` entry — a `.mp3`
path under `sounds/` — prefixed with the runtime base path normalized to
end in exactly one slash (for any base that does not itself end in a
double slash, true of every bundler base path). -/
theorem getAmbientUrl_spec :
    (∀ isElec origin base, getAmbientUrl isElec origin base .off = []) ∧
    ∀ (base : List Char) (p : AmbientPreset), p ≠ .off →
      base.reverse.take 2 ≠ ['/', '/'] →
      getAmbientUrl false [] base p = replaceOptTrailingSlash base ++ AMBIENT_PATHS p ∧
      (replaceOptTrailingSlash base).getLast? = some '/' ∧
      (replaceOptTrailingSlash base).reverse.take 2 ≠ ['/', '/'] ∧
      (AMBIENT_PATHS p).take 7 = "sounds/".toList ∧
      (AMBIENT_PATHS p).reverse.take 4 = ".mp3".toList.reverse := by
  refine ⟨fun isElec origin base => by simp [getAmbientUrl], ?_⟩
  intro base p hp hbase
  refine ⟨by simp [getAmbientUrl, hp], ?_, ?_, ?_, ?_⟩
  · by_cases h : base.getLast? = some '/'
    · simp [replaceOptTrailingSlash, h]
    · simp [replaceOptTrailingSlash, h]
  · by_cases h : base.getLast? = some '/'
    · simpa [replaceOptTrailingSlash, h] using hbase
    · simp only [replaceOptTrailingSlash, h, if_neg, List.reverse_append,
        List.reverse_cons, List.reverse_nil, List.nil_append, List.singleton_append]
      intro hcontra
      simp [List.take] at hcontra
      exact h ((List.head?_reverse base) ▸ take_one_eq_singleton hcontra)
  · cases p <;> first | exact absurd rfl hp | decide
  · cases p <;> first | exact absurd rfl hp | decide

/-- Witness for C10 with the default dev base path `./` and the cafe
preset. -/
theorem getAmbientUrl_spec_witness :
    getAmbientUrl true [] [] .off = [] ∧
    (AmbientPreset.cafe ≠ .off ∧
      ("./".toList).reverse.take 2 ≠ ['/', '/'] ∧
      getAmbientUrl false [] "./".toList .cafe =
        replaceOptTrailingSlash "./".toList ++ AMBIENT_PATHS .cafe ∧
      (replaceOptTrailingSlash "./".toList).getLast? = some '/' ∧
      (replaceOptTrailingSlash "./".toList).reverse.take 2 ≠ ['/', '/'] ∧
      (AMBIENT_PATHS .cafe).take 7 = "sounds/".toList ∧
      (AMBIENT_PATHS .cafe).reverse.take 4 = ".mp3".toList.reverse) :=
  ⟨getAmbientUrl_spec.1 true [] [],
   ⟨by decide, by decide,
    getAmbientUrl_spec.2 "./".toList .cafe (by decide) (by decide)⟩⟩

/-- The staleness facts an asynchronous ambient callback observes at the
moment it runs: the cancellation flag of the effect run
(`ambientCancelledRef.current`), whether `playerRef.current` still points
at the player the callback closed over (`refMatch`, `useAudio.ts` line
569), and the disposed flag of that player (line 570). -/
structure StaleCheck where
  cancelled : Bool
  refMatch : Bool
  disposed : Bool
  deriving DecidableEq, Repr

/-- Observable effects of the load-success continuation of `tryLoad`:
whether `player.start()` runs, whether the freshly loaded player and its
gain stage are disposed, whether the previous session captured by
`startAmbient` is stopped and disposed, and which value, if any, is
written to the load-error signal (`some none` = cleared to null,
`some (some p)` = error raised naming `p`, `none` = signal untouched). -/
structure LoadSuccessOutcome where
  started : Bool
  newPlayerDisposed : Bool
  newGainDisposed : Bool
  prevDisposed : Bool
  errorSignal : Option (Option AmbientPreset)
  deriving DecidableEq, Repr

/-- Success continuation of `tryLoad`, `useAudio.ts` lines 566-612: when
cancelled, dispose the new player, the new gain and the captured previous
session and return; otherwise dispose the previous session, clear the
load error, and start looping playback exactly when the ref still matches
and the player is not disposed (disposing the new pair otherwise). The
try/catch around the body only absorbs disposal errors of already
disposed nodes, which the embedding has no counterpart for. -/
def onAmbientLoadSuccess (c : StaleCheck) : LoadSuccessOutcome :=
  let cancelled := c.cancelled
  let refMatch := c.refMatch
  let notDisposed := !c.disposed
  if cancelled then
    { started := false, newPlayerDisposed := true, newGainDisposed := true
      prevDisposed := true, errorSignal := none }
  else if refMatch && notDisposed then
    { started := true, newPlayerDisposed := false, newGainDisposed := false
      prevDisposed := true, errorSignal := some none }
  else
    { started := false, newPlayerDisposed := true, newGainDisposed := true
      prevDisposed := true, errorSignal := some none }

/-- Observable action of the load-failure continuation of `tryLoad`
(`useAudio.ts` lines 625-638): do nothing (cancelled), schedule the retry
call after a fixed backoff, or raise the load error naming the requested
preset. -/
inductive LoadFailureAction where
  | ignore
  | scheduleRetry (delayMs : ℕ)
  | raiseError (p : AmbientPreset)
  deriving DecidableEq, Repr

/-- Failure continuation of `tryLoad`, `useAudio.ts` lines 625-638. -/
def onAmbientLoadFailure (preset : AmbientPreset) (cancelled retry : Bool) :
    LoadFailureAction :=
  if cancelled then .ignore
  else if !retry then .scheduleRetry 800
  else .raiseError preset

/-- Events of one ambient activation, used to trace `tryLoad` and the
Electron branch: `attempt n` records the n-th load call (0 = first,
1 = the retry), `backoff` a setTimeout delay in milliseconds before the
retry fires. -/
inductive AmbEvent where
  | attempt (n : ℕ)
  | backoff (ms : ℕ)
  | startPlayback
  | raiseError (p : AmbientPreset)
  deriving DecidableEq, Repr

/-- Events the success continuation emits, derived from
`onAmbientLoadSuccess`. -/
def successEvents (c : StaleCheck) : List AmbEvent :=
  let o := onAmbientLoadSuccess c
  (if o.started then [.startPlayback] else []) ++
  (match o.errorSignal with
   | some (some q) => [.raiseError q]
   | _ => [])

/-- The call tryLoad(true) scheduled by the first failure (`useAudio.ts`
lines 565-640 with the retry flag set): one load attempt; on failure,
nothing when cancelled, otherwise the load error is raised naming the
requested preset. `retryOk` tells whether this load call succeeds. -/
def tryLoadRetry (preset : AmbientPreset) (c : StaleCheck) (retryOk : Bool) :
    List AmbEvent :=
  .attempt 1 ::
  (if retryOk then successEvents c
   else if c.cancelled then []
   else [.raiseError preset])

/-- The initial call tryLoad() (`useAudio.ts` lines 565-640, retry flag
unset): one load attempt; on failure, nothing when cancelled, otherwise
the retry call is scheduled after the fixed 800 ms backoff (the scheduled
call appears inline after the backoff event). `firstOk` and `retryOk`
tell whether the first and second load call succeed. -/
def tryLoad (preset : AmbientPreset) (c : StaleCheck) (firstOk retryOk : Bool) :
    List AmbEvent :=
  .attempt 0 ::
  (if firstOk then successEvents c
   else if c.cancelled then []
   else .backoff 800 :: tryLoadRetry preset c retryOk)

/-- C2: a superseded ambient activation — cancellation flag still set (the
disable path), or the player ref no longer matching after a further preset
change re-armed the flag — never starts playback when its load completes:
the loaded player and its gain stage are disposed and no load error is
raised; and a load failure observed with the cancellation flag set is
ignored outright. -/
theorem stale_ambient_load_discarded :
    ∀ c : StaleCheck, c.cancelled = true ∨ c.refMatch = false →
      (onAmbientLoadSuccess c).started = false ∧
      (onAmbientLoadSuccess c).newPlayerDisposed = true ∧
      (onAmbientLoadSuccess c).newGainDisposed = true ∧
      (∀ p : AmbientPreset, (onAmbientLoadSuccess c).errorSignal ≠ some (some p)) ∧
      (∀ preset retry, onAmbientLoadFailure preset true retry = .ignore) := by
  intro c hc
  rcases c with ⟨cc, rm, d⟩
  cases cc <;> cases rm <;> cases d <;>
    simp_all [onAmbientLoadSuccess, onAmbientLoadFailure]

/-- Witness for C2 at the disable-path staleness facts. -/
theorem stale_ambient_load_discarded_witness :
    (onAmbientLoadSuccess ⟨true, true, false⟩).started = false ∧
    (onAmbientLoadSuccess ⟨true, true, false⟩).newPlayerDisposed = true ∧
    (onAmbientLoadSuccess ⟨true, true, false⟩).newGainDisposed = true ∧
    (∀ p : AmbientPreset,
      (onAmbientLoadSuccess ⟨true, true, false⟩).errorSignal ≠ some (some p)) ∧
    (∀ preset retry, onAmbientLoadFailure preset true retry = .ignore) :=
  stale_ambient_load_discarded ⟨true, true, false⟩ (Or.inl rfl)

/-- C4: on a fresh (not superseded) ambient activation whose load fails,
the load is retried exactly once, after a single fixed 800 ms backoff;
when the retry also fails, the load error is raised naming exactly the
requested preset, playback is never started, and each failure is handled
by the catch continuation (`scheduleRetry` then `raiseError` — nothing
escapes). -/
theorem ambient_retry_once_then_error :
    ∀ (preset : AmbientPreset) (c : StaleCheck), c.cancelled = false →
      tryLoad preset c false false =
        [.attempt 0, .backoff 800, .attempt 1, .raiseError preset] ∧
      (tryLoad preset c false false).count (.backoff 800) = 1 ∧
      .startPlayback ∉ tryLoad preset c false false ∧
      (∀ q, .raiseError q ∈ tryLoad preset c false false → q = preset) ∧
      onAmbientLoadFailure preset false false = .scheduleRetry 800 ∧
      onAmbientLoadFailure preset false true = .raiseError preset := by
  intro preset c hc
  have ht : tryLoad preset c false false =
      [.attempt 0, .backoff 800, .attempt 1, .raiseError preset] := by
    simp [tryLoad, tryLoadRetry, hc]
  refine ⟨ht, ?_, ?_, ?_, by simp [onAmbientLoadFailure], by simp [onAmbientLoadFailure]⟩
  · rw [ht]; simp [List.count_cons]
  · rw [ht]; simp
  · rw [ht]; intro q hq; simp at hq; exact hq

/-- Witness for C4 at the rain preset and fresh staleness facts. -/
theorem ambient_retry_once_then_error_witness :
    tryLoad .rain ⟨false, true, false⟩ false false =
      [.attempt 0, .backoff 800, .attempt 1, .raiseError .rain] ∧
    (tryLoad .rain ⟨false, true, false⟩ false false).count (.backoff 800) = 1 ∧
    .startPlayback ∉ tryLoad .rain ⟨false, true, false⟩ false false ∧
    (∀ q, .raiseError q ∈ tryLoad .rain ⟨false, true, false⟩ false false → q = .rain) ∧
    onAmbientLoadFailure .rain false false = .scheduleRetry 800 ∧
    onAmbientLoadFailure .rain false true = .raiseError .rain :=
  ambient_retry_once_then_error .rain ⟨false, true, false⟩ rfl

/-- The Electron ambient branch, `useAudio.ts` lines 484-506: a single
fetch of the asset URL; on success an HTMLAudioElement starts looping
playback; on any failure the load error is raised immediately naming the
requested preset — no retry, no backoff. -/
def electronAmbientLoad (preset : AmbientPreset) (fetchOk : Bool) : List AmbEvent :=
  .attempt 0 :: (if fetchOk then [.startPlayback] else [.raiseError preset])

/-- Number of load attempts recorded in a trace. -/
def attemptCount (tr : List AmbEvent) : ℕ :=
  (tr.filter fun e => match e with | .attempt _ => true | _ => false).length

/-- What a layer cleanup schedules: an optional linear ramp of the gain
stage (target value, duration in seconds) and the delay in milliseconds
at which the captured nodes are disposed. -/
structure TeardownPlan where
  rampToSilence : Option (ℚ × ℚ)
  disposeDelayMs : ℕ
  deriving DecidableEq, Repr

/-- Cleanup of the ambient effect on the Tone backend, `useAudio.ts`
lines 660-692: with `fadeOut` set, a live gain stage captured and the
Tone module loaded, the gain is ramped linearly to 0.001 over 1 second
and disposal of the captured nodes is scheduled 1100 ms out; otherwise
disposal is scheduled at delay 0. -/
def ambientCleanupPlan (fadeOut hasGain toneLoaded : Bool) : TeardownPlan :=
  if fadeOut && hasGain && toneLoaded then
    { rampToSilence := some (1 / 1000, 1), disposeDelayMs := 1100 }
  else { rampToSilence := none, disposeDelayMs := 0 }

/-- Cleanup of the binaural effect on the Tone backend, `useAudio.ts`
lines 424-449: identical fade policy to the ambient cleanup. -/
def binauralCleanupPlan (fadeOut hasGain toneLoaded : Bool) : TeardownPlan :=
  if fadeOut && hasGain && toneLoaded then
    { rampToSilence := some (1 / 1000, 1), disposeDelayMs := 1100 }
  else { rampToSilence := none, disposeDelayMs := 0 }

/-- Cleanup of the Electron ambient branch, `useAudio.ts` lines 507-523:
the audio element is paused and its source cleared synchronously — no
ramp and no deferred disposal, whatever the fade configuration. -/
def electronAmbientCleanupPlan (_fadeOut : Bool) : TeardownPlan :=
  { rampToSilence := none, disposeDelayMs := 0 }

/-- C5 counterexample: at the same configuration (rain preset, fresh
activation, every load attempt failing, fadeOut set) the two backends
behave differently — the Tone backend performs two load attempts with one
800 ms backoff, the Electron backend performs a single attempt with no
backoff, and the Tone teardown schedules a 1-second fade while the
Electron teardown disposes immediately. So the backends are not
externally identical. -/
theorem backend_behaviors_differ :
    tryLoad .rain ⟨false, true, false⟩ false false ≠
      electronAmbientLoad .rain false ∧
    attemptCount (tryLoad .rain ⟨false, true, false⟩ false false) = 2 ∧
    attemptCount (electronAmbientLoad .rain false) = 1 ∧
    (tryLoad .rain ⟨false, true, false⟩ false false).count (.backoff 800) = 1 ∧
    (electronAmbientLoad .rain false).count (.backoff 800) = 0 ∧
    ambientCleanupPlan true true true ≠ electronAmbientCleanupPlan true := by
  refine ⟨by decide, by decide, by decide, by decide, by decide, ?_⟩
  simp [ambientCleanupPlan, electronAmbientCleanupPlan]

/-- C5 amended: the backends agree on the shape of load-error signalling
— a final load failure raises the signal naming exactly the requested
preset and leaves the layer silent, and a successful load starts
playback — but they are not identical: the Electron backend attempts the
ambient load exactly once (no 800 ms retry) and tears down with no fade
ramp. -/
theorem backend_agreement_and_divergence :
    ∀ (p : AmbientPreset) (c : StaleCheck),
      c.cancelled = false → c.refMatch = true → c.disposed = false →
      (.raiseError p ∈ tryLoad p c false false ∧
        .startPlayback ∉ tryLoad p c false false) ∧
      (.raiseError p ∈ electronAmbientLoad p false ∧
        .startPlayback ∉ electronAmbientLoad p false) ∧
      (.startPlayback ∈ tryLoad p c true false ∧
        .startPlayback ∈ electronAmbientLoad p true) ∧
      attemptCount (electronAmbientLoad p false) = 1 ∧
      (electronAmbientLoad p false).count (.backoff 800) = 0 ∧
      (electronAmbientCleanupPlan true).rampToSilence = none := by
  intro p c h1 h2 h3
  rcases c with ⟨cc, rm, d⟩
  simp_all [tryLoad, tryLoadRetry, successEvents, onAmbientLoadSuccess,
    electronAmbientLoad, electronAmbientCleanupPlan, attemptCount, List.count_cons]

/-- Witness for the amended C5 at the rain preset. -/
theorem backend_agreement_and_divergence_witness :
    (.raiseError .rain ∈ tryLoad .rain ⟨false, true, false⟩ false false ∧
      .startPlayback ∉ tryLoad .rain ⟨false, true, false⟩ false false) ∧
    (.raiseError .rain ∈ electronAmbientLoad .rain false ∧
      .startPlayback ∉ electronAmbientLoad .rain false) ∧
    (.startPlayback ∈ tryLoad .rain ⟨false, true, false⟩ true false ∧
      .startPlayback ∈ electronAmbientLoad .rain true) ∧
    attemptCount (electronAmbientLoad .rain false) = 1 ∧
    (electronAmbientLoad .rain false).count (.backoff 800) = 0 ∧
    (electronAmbientCleanupPlan true).rampToSilence = none :=
  backend_agreement_and_divergence .rain ⟨false, true, false⟩ rfl rfl rfl

/-- Events of one run of the Tone `startBinaural` beat branch
(`useAudio.ts` lines 339-417) after the effect body captured the previous
session refs. -/
inductive BinEvent where
  | toneStart
  | createGain
  | createMerge
  | createOsc (isRight : Bool)
  | oscStart (isRight : Bool) (whenT : ℚ)
  | commitRefs
  | disposeNew
  | disposePrev
  deriving DecidableEq, Repr

/-- Trace of the beat branch of `startBinaural`: after `Tone.start()` the
cancellation flag is checked (abandoning the run when set); the gain,
merger and the two oscillators are built, both oscillators started at one
clock value, the flag is checked again (disposing the new nodes when
set), and only then are the captured previous nodes disposed
(`disposeBinauralNodes(prev)`, lines 385 and 406 and 413). -/
def startBinauralTrace (cancelAfterToneStart cancelAfterCreate : Bool)
    (now : ℚ) : List BinEvent :=
  .toneStart ::
  (if cancelAfterToneStart then []
   else [.createGain, .createMerge, .createOsc false, .createOsc true,
         .oscStart false now, .oscStart true now] ++
     (if cancelAfterCreate then [.disposeNew, .disposePrev]
      else [.commitRefs, .disposePrev]))

/-- Audible fade window in milliseconds configured by the fadeOut flag. -/
def fadeWindowMs (fadeOut : Bool) : ℕ := if fadeOut then 1000 else 0

/-- One scheduling tick of the embedding, in milliseconds (the slack the
cleanup adds beyond the fade window: 1100 − 1000). -/
def SCHEDULING_TICK_MS : ℕ := 100

/-- Timeline of an ambient preset switch on the Tone backend, with
`loadMs` the time the load of the new asset takes. The cleanup of the
old effect run (lines 660-692) captures and nulls the player/gain refs
and schedules their disposal by `ambientCleanupPlan` — the old player is
audible until the ramp reaches near silence (at the fade window) or
until its immediate disposal without fade. The new effect body then runs
with nulled refs, so the previous-session hold of `startAmbient` (line
545) captures null and the new player starts only when its own load
resolves, at `loadMs`. -/
structure SwitchTimeline where
  oldAudibleEndMs : ℕ
  oldDisposeAtMs : ℕ
  newStartMs : ℕ
  deriving DecidableEq, Repr

/-- The ambient preset switch timeline induced by the cleanup plan and
the load latency of the new asset. -/
def ambientSwitchTimeline (fadeOut : Bool) (loadMs : ℕ) : SwitchTimeline :=
  let plan := ambientCleanupPlan fadeOut true true
  { oldAudibleEndMs := min (fadeWindowMs fadeOut) plan.disposeDelayMs
    oldDisposeAtMs := plan.disposeDelayMs
    newStartMs := loadMs }

/-- Silence gap of an ambient preset switch: time from the old player
falling silent to the new player starting. -/
def ambientSwitchGapMs (fadeOut : Bool) (loadMs : ℕ) : ℕ :=
  (ambientSwitchTimeline fadeOut loadMs).newStartMs -
    (ambientSwitchTimeline fadeOut loadMs).oldAudibleEndMs

/-- C3, evaluated at the failing input: an ambient preset switch with
fadeOut unset and a new asset that takes 5000 ms to load leaves the layer
silent for the full 5000 ms — far beyond one scheduling tick — because
the effect cleanup disposes the old player at delay 0, before the new
session is anywhere near ready (the hold-until-ready previous-session
capture inside `startAmbient` is inert on this path: the cleanup nulls
the refs before the new effect body runs). The disposal-ordering half of
the claim does hold and is recorded here too: on the cleanup path
disposal is scheduled only at or after the fade window (1100 ≥ 1000 with
fade, 0 ≥ 0 without, the overhang bounded by one tick), and in the
replacement traces the previous nodes are disposed only after the new
oscillators have started (binaural) or after the new load resolved
(ambient success continuation). -/
theorem ambient_switch_gap_exceeds_tick :
    ambientSwitchGapMs false 5000 = 5000 ∧
    SCHEDULING_TICK_MS < ambientSwitchGapMs false 5000 ∧
    (ambientCleanupPlan false true true).disposeDelayMs = 0 ∧
    (∀ hasGain toneLoaded fadeOut,
      fadeWindowMs fadeOut ≤
          (ambientCleanupPlan fadeOut hasGain toneLoaded).disposeDelayMs ∨
        (hasGain && toneLoaded) = false) ∧
    (∀ fadeOut hasGain toneLoaded,
      (ambientCleanupPlan fadeOut hasGain toneLoaded).disposeDelayMs ≤
        fadeWindowMs fadeOut + SCHEDULING_TICK_MS) ∧
    (∀ now : ℚ, ∃ pre, startBinauralTrace false false now = pre ++ [.disposePrev] ∧
      .oscStart false now ∈ pre ∧ .oscStart true now ∈ pre) := by
  refine ⟨by decide, by decide, by decide, ?_, ?_, ?_⟩
  · intro hasGain toneLoaded fadeOut
    cases hasGain <;> cases toneLoaded <;> cases fadeOut <;>
      simp [ambientCleanupPlan, fadeWindowMs]
  · intro fadeOut hasGain toneLoaded
    cases hasGain <;> cases toneLoaded <;> cases fadeOut <;>
      simp [ambientCleanupPlan, fadeWindowMs, SCHEDULING_TICK_MS]
  · intro now
    refine ⟨[.toneStart, .createGain, .createMerge, .createOsc false,
      .createOsc true, .oscStart false now, .oscStart true now, .commitRefs],
      ?_, ?_, ?_⟩ <;> simp [startBinauralTrace]

/-- A gain stage: a node identity and the mutable gain value. -/
structure GainStage where
  nodeId : ℕ
  value : ℚ
  deriving DecidableEq, Repr

/-- The signal nodes of a live binaural session: a stereo beat pair (left
and right oscillators, merger, one start timestamp) or a looping noise
source for the block-noise preset. -/
inductive BinauralNodes where
  | beat (leftOscId rightOscId mergeId : ℕ) (startAt : ℚ)
  | noise (noiseId : ℕ)
  deriving DecidableEq, Repr

/-- A live binaural session: its nodes and its gain stage. -/
structure BinauralSession where
  nodes : BinauralNodes
  gain : GainStage
  deriving DecidableEq, Repr

/-- A live ambient session: the player node and its gain stage. -/
structure AmbientSession where
  playerId : ℕ
  gain : GainStage
  deriving DecidableEq, Repr

/-- The state owned by one mounted `useAudio` hook: the node refs of each
layer, collapsed to at most one live session per layer, and the
ambientLoadError React state. -/
structure HookState where
  binaural : Option BinauralSession
  ambient : Option AmbientSession
  loadError : Option AmbientPreset
  deriving DecidableEq, Repr

/-- Dependency tuple of the binaural effect, `useAudio.ts` lines 450-457
(the two useCallback entries are constant across renders and omitted). -/
def binauralDeps (c : NoiseConfig) : Bool × BinauralPreset × Bool × Bool :=
  (c.enabled, c.binauralPreset, c.fadeIn, c.fadeOut)

/-- Dependency tuple of the ambient effect, `useAudio.ts` lines 693-698. -/
def ambientDeps (c : NoiseConfig) : Bool × AmbientPreset × Bool × Bool :=
  (c.enabled, c.ambientPreset, c.fadeIn, c.fadeOut)

/-- Dependency tuple of the volume effect, `useAudio.ts` line 717. -/
def volumeDeps (c : NoiseConfig) : ℚ × ℚ := (c.binauralVolume, c.ambientVolume)

/-- One run of the binaural effect body (`useAudio.ts` lines 259-449):
disabled or preset off disposes the session; block-noise builds a looping
noise source behind a fresh gain stage; a preset present in
`BINAURAL_BEAT_HZ` builds the stereo beat pair at the current clock
value; a preset absent from the table builds nothing. Fresh node
identities start at `freshId`. -/
def runBinauralEffect (c : NoiseConfig) (freshId : ℕ) (now : ℚ)
    (s : HookState) : HookState :=
  if !c.enabled || c.binauralPreset = .off then { s with binaural := none }
  else if c.binauralPreset = .blockNoise then
    { s with binaural := some ⟨.noise freshId, ⟨freshId + 1, c.binauralVolume⟩⟩ }
  else
    match BINAURAL_BEAT_HZ c.binauralPreset with
    | some _ =>
      let nodes := BinauralNodes.beat freshId (freshId + 1) (freshId + 2) now
      { s with binaural := some ⟨nodes, ⟨freshId + 3, c.binauralVolume⟩⟩ }
    | none => s

/-- One run of the ambient effect body (`useAudio.ts` lines 460-692):
disabled or preset off clears the load error and disposes; a preset
outside `AMBIENT_PRESETS` disposes without clearing; otherwise the load
error is cleared and a fresh player/gain pair is created (its playback
starting later, when the load resolves). -/
def runAmbientEffect (c : NoiseConfig) (freshId : ℕ) (s : HookState) :
    HookState :=
  if !c.enabled then { s with ambient := none, loadError := none }
  else if c.ambientPreset = .off then { s with ambient := none, loadError := none }
  else if c.ambientPreset ∉ AMBIENT_PRESETS then { s with ambient := none }
  else
    { s with ambient := some ⟨freshId, ⟨freshId + 1, c.ambientVolume⟩⟩,
             loadError := none }

/-- The volume effect body (`useAudio.ts` lines 700-717): write the
configured volume into each live gain stage in place; no node is
created, disposed or restarted. -/
def runVolumeEffect (c : NoiseConfig) (s : HookState) : HookState :=
  { s with
    binaural := s.binaural.map fun b =>
      { b with gain := { b.gain with value := c.binauralVolume } }
    ambient := s.ambient.map fun a =>
      { a with gain := { a.gain with value := c.ambientVolume } } }

/-- One React commit after the configuration changed from `old` to `new`:
each of the three effects re-runs exactly when its dependency tuple
changed (standard dependency-array semantics of the three useEffect
calls). -/
def reactStep (old new : NoiseConfig) (freshB freshA : ℕ) (now : ℚ)
    (s : HookState) : HookState :=
  let s1 := if binauralDeps new ≠ binauralDeps old
    then runBinauralEffect new freshB now s else s
  let s2 := if ambientDeps new ≠ ambientDeps old
    then runAmbientEffect new freshA s1 else s1
  if volumeDeps new ≠ volumeDeps old then runVolumeEffect new s2 else s2

theorem runBinauralEffect_ambient (c : NoiseConfig) (f : ℕ) (now : ℚ)
    (s : HookState) : (runBinauralEffect c f now s).ambient = s.ambient := by
  unfold runBinauralEffect
  split
  · rfl
  · split
    · rfl
    · split <;> rfl

theorem runBinauralEffect_loadError (c : NoiseConfig) (f : ℕ) (now : ℚ)
    (s : HookState) : (runBinauralEffect c f now s).loadError = s.loadError := by
  unfold runBinauralEffect
  split
  · rfl
  · split
    · rfl
    · split <;> rfl

theorem runAmbientEffect_binaural (c : NoiseConfig) (f : ℕ) (s : HookState) :
    (runAmbientEffect c f s).binaural = s.binaural := by
  unfold runAmbientEffect
  split
  · rfl
  · split
    · rfl
    · split <;> rfl

/-- C6: changing only the ambient preset leaves the live binaural session
untouched (same nodes, same start time, not stopped or rebuilt), and
changing only the binaural preset leaves the live ambient session and the
load-error signal untouched — each layer has its own effect and the other
layer is absent from its dependency list. -/
theorem layer_effects_independent :
    ∀ (old : NoiseConfig) (p : AmbientPreset) (q : BinauralPreset)
      (freshB freshA : ℕ) (now : ℚ) (s : HookState),
      (reactStep old { old with ambientPreset := p } freshB freshA now s).binaural
        = s.binaural ∧
      (reactStep old { old with binauralPreset := q } freshB freshA now s).ambient
        = s.ambient ∧
      (reactStep old { old with binauralPreset := q } freshB freshA now s).loadError
        = s.loadError := by
  intro old p q freshB freshA now s
  refine ⟨?_, ?_, ?_⟩
  · simp only [reactStep, binauralDeps, ambientDeps, volumeDeps, ne_eq]
    simp only [not_true_eq_false, if_false, if_neg, not_false_eq_true]
    split <;> simp [runAmbientEffect_binaural]
  · simp only [reactStep, binauralDeps, ambientDeps, volumeDeps, ne_eq]
    simp only [not_true_eq_false, if_false, if_neg, not_false_eq_true]
    split <;> simp [runBinauralEffect_ambient]
  · simp only [reactStep, binauralDeps, ambientDeps, volumeDeps, ne_eq]
    simp only [not_true_eq_false, if_false, if_neg, not_false_eq_true]
    split <;> simp [runBinauralEffect_loadError]

/-- C7: a volume change while a layer is active only writes the gain
value of the existing gain stage — the session keeps its nodes (same
identities, same start time) and the same gain-stage node, nothing is
created, disposed or restarted. -/
theorem volume_mutation_without_rebuild :
    ∀ (c : NoiseConfig) (s : HookState) (b : BinauralSession) (a : AmbientSession),
      s.binaural = some b → s.ambient = some a →
      (runVolumeEffect c s).binaural =
        some ⟨b.nodes, ⟨b.gain.nodeId, c.binauralVolume⟩⟩ ∧
      (runVolumeEffect c s).ambient =
        some ⟨a.playerId, ⟨a.gain.nodeId, c.ambientVolume⟩⟩ ∧
      (runVolumeEffect c s).loadError = s.loadError := by
  intro c s b a hb ha
  simp [runVolumeEffect, hb, ha]

/-- Witness for C7 at a concrete active state. -/
theorem volume_mutation_without_rebuild_witness :
    (runVolumeEffect ⟨true, .focus, .rain, 1/2, 1/3, false, false⟩
        ⟨some ⟨.beat 0 1 2 0, ⟨3, 1⟩⟩, some ⟨4, ⟨5, 1⟩⟩, none⟩).binaural =
      some ⟨.beat 0 1 2 0, ⟨3, 1/2⟩⟩ ∧
    (runVolumeEffect ⟨true, .focus, .rain, 1/2, 1/3, false, false⟩
        ⟨some ⟨.beat 0 1 2 0, ⟨3, 1⟩⟩, some ⟨4, ⟨5, 1⟩⟩, none⟩).ambient =
      some ⟨4, ⟨5, 1/3⟩⟩ ∧
    (runVolumeEffect ⟨true, .focus, .rain, 1/2, 1/3, false, false⟩
        ⟨some ⟨.beat 0 1 2 0, ⟨3, 1⟩⟩, some ⟨4, ⟨5, 1⟩⟩, none⟩).loadError =
      (none : Option AmbientPreset) :=
  volume_mutation_without_rebuild ⟨true, .focus, .rain, 1/2, 1/3, false, false⟩
    ⟨some ⟨.beat 0 1 2 0, ⟨3, 1⟩⟩, some ⟨4, ⟨5, 1⟩⟩, none⟩
    ⟨.beat 0 1 2 0, ⟨3, 1⟩⟩ ⟨4, ⟨5, 1⟩⟩ rfl rfl

theorem runVolumeEffect_loadError (c : NoiseConfig) (s : HookState) :
    (runVolumeEffect c s).loadError = s.loadError := rfl

/-- The unmount cleanup, `useAudio.ts` line 256 (`disposeAll`):
`disposeBinaural` (or its native variant) and `disposeAmbient` null
every node ref of both layers. -/
def unmountCleanup (s : HookState) : HookState :=
  { s with binaural := none, ambient := none }

/-- C8: when the enabled flag goes false, the next commit re-runs both
layer effects (enabled sits in both dependency tuples), each disposes
its session, and the ambient effect clears the load-error signal, so the
resulting state holds no node and a null load error; and the unmount
cleanup (`disposeAll`, line 256) likewise nulls every node ref of both
layers (the React load-error state is discarded with the component). -/
theorem disable_releases_all_nodes :
    ∀ (old new : NoiseConfig) (freshB freshA : ℕ) (now : ℚ) (s : HookState),
      old.enabled = true → new.enabled = false →
      (reactStep old new freshB freshA now s).binaural = none ∧
      (reactStep old new freshB freshA now s).ambient = none ∧
      (reactStep old new freshB freshA now s).loadError = none ∧
      (∀ t : HookState, (unmountCleanup t).binaural = none ∧
        (unmountCleanup t).ambient = none) := by
  intro old new freshB freshA now s hold hnew
  refine ?_
  have hunmount : ∀ t : HookState, (unmountCleanup t).binaural = none ∧
      (unmountCleanup t).ambient = none := fun t => ⟨rfl, rfl⟩
  have hbd : binauralDeps new ≠ binauralDeps old := by
    simp [binauralDeps, hold, hnew]
  have had : ambientDeps new ≠ ambientDeps old := by
    simp [ambientDeps, hold, hnew]
  have hb : runBinauralEffect new freshB now s = { s with binaural := none } := by
    simp [runBinauralEffect, hnew]
  have ha : ∀ t : HookState, runAmbientEffect new freshA t =
      { t with ambient := none, loadError := none } := by
    intro t; simp [runAmbientEffect, hnew]
  simp only [reactStep, if_pos hbd, if_pos had, hb, ha]
  split <;> simp [runVolumeEffect, hunmount]

/-- Witness for C8: disabling from a fully active state empties both
layers and clears the error. -/
theorem disable_releases_all_nodes_witness :
    (reactStep ⟨true, .focus, .rain, 1/2, 1/2, false, false⟩
        ⟨false, .focus, .rain, 1/2, 1/2, false, false⟩ 10 20 0
        ⟨some ⟨.beat 0 1 2 0, ⟨3, 1⟩⟩, some ⟨4, ⟨5, 1⟩⟩, some .rain⟩).binaural
      = none ∧
    (reactStep ⟨true, .focus, .rain, 1/2, 1/2, false, false⟩
        ⟨false, .focus, .rain, 1/2, 1/2, false, false⟩ 10 20 0
        ⟨some ⟨.beat 0 1 2 0, ⟨3, 1⟩⟩, some ⟨4, ⟨5, 1⟩⟩, some .rain⟩).ambient
      = none ∧
    (reactStep ⟨true, .focus, .rain, 1/2, 1/2, false, false⟩
        ⟨false, .focus, .rain, 1/2, 1/2, false, false⟩ 10 20 0
        ⟨some ⟨.beat 0 1 2 0, ⟨3, 1⟩⟩, some ⟨4, ⟨5, 1⟩⟩, some .rain⟩).loadError
      = none ∧
    (∀ t : HookState, (unmountCleanup t).binaural = none ∧
      (unmountCleanup t).ambient = none) :=
  disable_releases_all_nodes ⟨true, .focus, .rain, 1/2, 1/2, false, false⟩
    ⟨false, .focus, .rain, 1/2, 1/2, false, false⟩ 10 20 0
    ⟨some ⟨.beat 0 1 2 0, ⟨3, 1⟩⟩, some ⟨4, ⟨5, 1⟩⟩, some .rain⟩ rfl rfl

/-- Process-wide state of the audio-context gate: the module-level refs
`electronContextRef` (line 9) and `toneModuleRef` (line 12). Contexts and
modules are identified by allocation ids. -/
structure GateState where
  electronCtx : Option ℕ
  toneModule : Option ℕ
  deriving DecidableEq, Repr

/-- Value `getTone` resolves with: the dynamically imported Tone module
in browser mode, and the constant empty placeholder object in Electron
mode (line 22). -/
inductive GateResult where
  | dummy
  | toneModule (id : ℕ)
  deriving DecidableEq, Repr

/-- `getTone`, `useAudio.ts` lines 15-28: in Electron mode, construct the
AudioContext only when the ref is empty, resume it, and resolve with the
placeholder; in browser mode, resolve with the cached Tone module when
present, otherwise import it once and cache it. `fresh` is the id the
host would give a newly constructed context or newly imported module;
the third component records whether this call constructed one. -/
def getTone (isElec : Bool) (fresh : ℕ) (s : GateState) :
    GateResult × GateState × Bool :=
  if isElec then
    match s.electronCtx with
    | some _ => (.dummy, s, false)
    | none => (.dummy, { s with electronCtx := some fresh }, true)
  else
    match s.toneModule with
    | some t => (.toneModule t, s, false)
    | none => (.toneModule fresh, { s with toneModule := some fresh }, true)

/-- A sequence of `getTone` calls, returning each result paired with its
construction flag, and the final gate state. -/
def getToneRun (isElec : Bool) : List ℕ → GateState →
    List (GateResult × Bool) × GateState
  | [], s => ([], s)
  | f :: fs, s =>
    let step := getTone isElec f s
    let rest := getToneRun isElec fs step.2.1
    ((step.1, step.2.2) :: rest.1, rest.2)

theorem getTone_stable (isElec : Bool) (f f2 : ℕ) (s : GateState) :
    getTone isElec f2 (getTone isElec f s).2.1 =
      ((getTone isElec f s).1, (getTone isElec f s).2.1, false) := by
  rcases s with ⟨ec, tm⟩
  cases isElec <;> [cases tm; cases ec] <;> simp [getTone]

theorem getToneRun_stable (isElec : Bool) (fs : List ℕ) (f : ℕ) (s : GateState) :
    getToneRun isElec fs (getTone isElec f s).2.1 =
      (List.replicate fs.length ((getTone isElec f s).1, false),
        (getTone isElec f s).2.1) := by
  induction fs with
  | nil => simp [getToneRun]
  | cons g gs ih =>
    simp only [getToneRun, getTone_stable, List.length_cons, List.replicate]
    simp [ih]

/-- C9: the gate is idempotent — in any sequence of calls, whatever the
starting state, every call after the first resolves with the very result
of the first call, constructs nothing, and leaves the process-wide state
exactly as the first call left it; at most the first call constructs a
context or imports the module. -/
theorem getTone_idempotent :
    ∀ (isElec : Bool) (f : ℕ) (fs : List ℕ) (s : GateState),
      getToneRun isElec (f :: fs) s =
        (((getTone isElec f s).1, (getTone isElec f s).2.2) ::
          List.replicate fs.length ((getTone isElec f s).1, false),
          (getTone isElec f s).2.1) := by
  intro isElec f fs s
  simp only [getToneRun, getToneRun_stable]

end BinauralTomato
